import Mathlib

/-!
Shallow embedding of the git synchronization engine in
`packages/opal-server/opal_server/git_fetcher.py`.

The repository state visible to the code (configured remote URLs,
remote-tracking branch refs, local branch refs, the object store) is modelled
explicitly; the external capabilities (network fetch, network clone, the
caller-supplied on_update callback) are modelled by an environment value that
fixes the outcome of each external call inside one synchronize cycle.
Exceptions are modelled as an `Option SyncError` field of the result: `none`
means the call returned normally, `some e` means the exception `e` propagated
to the caller.
-/

namespace Opal

/-- The part of GitPolicyScopeSource that the fetcher reads: the remote URL
and the tracked branch name. -/
structure GitPolicyScopeSource where
  url : String
  branch : String
deriving DecidableEq

/-- State of a local clone as seen through pygit2: the URLs of the configured
remotes, the remote-tracking branch refs (keyed by "remote/branch", each
holding a commit hex), the local branch refs under refs/heads (keyed by branch
name), the set of commit hashes resolvable in the object store, and whether
opening the repository raises pygit2.GitError (a corrupted directory). -/
structure Repository where
  remotes : List String
  remoteBranches : List (String × String)
  localBranches : List (String × String)
  objects : List String
  corrupted : Bool
deriving DecidableEq

def emptyRepository : Repository :=
  { remotes := [], remoteBranches := [], localBranches := [], objects := [], corrupted := false }

/-- Exceptions the Python code can raise past a synchronize or make_bundle
call: ValueError (remote mismatch, unresolvable branch head, bad commit name),
RuntimeError (branch not found while creating a local ref), pygit2.GitError
propagating from a fetch, and an exception raised by the on_update callback. -/
inductive SyncError
  | valueError (msg : String)
  | runtimeError (msg : String)
  | gitError
  | callbackError
deriving DecidableEq

/-- Outcome of the external network fetch: the repository state after the
fetch updated the remote-tracking refs and the object store, or a transport
error (pygit2.GitError). -/
inductive FetchOutcome
  | ok (repo : Repository)
  | transportError
deriving DecidableEq

/-- Outcome of the external clone_repository call: the cloned repository state
together with the checked-out head commit hex, or pygit2.GitError. -/
inductive CloneOutcome
  | ok (repo : Repository) (headHex : String)
  | gitError
deriving DecidableEq

/-- Fixes the behavior of the external collaborators during one synchronize
cycle: the result of a network fetch, the result of a network clone, and
whether the caller-supplied on_update callback raises. -/
structure Env where
  fetch : FetchOutcome
  clone : CloneOutcome
  onUpdateRaises : Bool
deriving DecidableEq

/-- The on-disk world at the resolved clone path: whether a discoverable git
directory is present, and its repository state when it is. -/
structure World where
  cloneExists : Bool
  repo : Repository
deriving DecidableEq

/-- Observable outcome of one fetch_and_notify_on_changes cycle: the final
world, the list of on_update invocations (old revision, new revision) in
order, whether a network fetch was attempted, whether a clone was attempted,
whether the clone directory was deleted, and the exception that propagated to
the caller, if any. -/
structure SyncResult where
  world : World
  notifications : List (Option String × String)
  fetched : Bool
  cloneAttempted : Bool
  deletedDir : Bool
  error : Option SyncError
deriving DecidableEq

/-- Lookup of a ref by exact name in an association list of refs. -/
def lookupRef : List (String × String) → String → Option String
  | [], _ => none
  | (k, v) :: tl, b => if k = b then some v else lookupRef tl b

/-- Replaces the target of every ref named `b` with `n` (Reference.set_target). -/
def setRef : List (String × String) → String → String → List (String × String)
  | [], _, _ => []
  | (k, v) :: tl, b, n =>
    if k = b then (k, n) :: setRef tl b n else (k, v) :: setRef tl b n

namespace RepoInterface

/-- The short name of a remote-tracking branch, e.g. "origin/main". -/
def remoteBranchKey (remoteName branchName : String) : String :=
  remoteName ++ "/" ++ branchName

/-- RepoInterface.has_remote_branch: lookup_reference on
refs/remotes/remote/branch succeeds. -/
def has_remote_branch (repo : Repository) (branch remote : String) : Bool :=
  (lookupRef repo.remoteBranches (remoteBranchKey remote branch)).isSome

/-- RepoInterface.get_local_branch followed by reading target.hex: the target
of refs/heads/branch, or none when lookup_reference raises KeyError. -/
def get_local_branch (repo : Repository) (branch : String) : Option String :=
  lookupRef repo.localBranches branch

/-- RepoInterface.get_commit_hash: resolve_refish of "remote/branch", none
when that raises (branch unknown). -/
def get_commit_hash (repo : Repository) (branch remote : String) : Option String :=
  lookupRef repo.remoteBranches (remoteBranchKey remote branch)

/-- RepoInterface.verify_found_repo_matches_remote: returns normally when some
configured remote URL equals the expected URL, raises ValueError otherwise. -/
def verify_found_repo_matches_remote (repo : Repository) (expectedRemoteUrl : String) :
    Except String Unit :=
  if repo.remotes.contains expectedRemoteUrl then Except.ok ()
  else Except.error ("Repo mismatch! No remote matches target url: " ++ expectedRemoteUrl)

/-- RepoInterface.create_local_branch_ref: when refs/heads/branch_name is
absent, creates it from the remote-tracking branch, else from the
remote-tracking base branch, else raises RuntimeError; when it already exists
it is returned unchanged. Returns the repository and the target hex of the
returned reference. -/
def create_local_branch_ref (repo : Repository)
    (branchName remoteName baseBranch : String) :
    Except String (Repository × String) :=
  match lookupRef repo.localBranches branchName with
  | some hex => Except.ok (repo, hex)
  | none =>
    match lookupRef repo.remoteBranches (remoteBranchKey remoteName branchName) with
    | some commit =>
      Except.ok ({ repo with localBranches := repo.localBranches ++ [(branchName, commit)] }, commit)
    | none =>
      match lookupRef repo.remoteBranches (remoteBranchKey remoteName baseBranch) with
      | some commit =>
        Except.ok ({ repo with localBranches := repo.localBranches ++ [(branchName, commit)] }, commit)
      | none => Except.error "Both branch and base branch were not found on remote"

/-- Reference.set_target on the local branch ref. -/
def set_target (repo : Repository) (branchName newHex : String) : Repository :=
  { repo with localBranches := setRef repo.localBranches branchName newHex }

end RepoInterface

namespace GitPolicyFetcher

open RepoInterface

/-- GitPolicyFetcher._should_fetch: force wins; a missing remote-tracking
branch forces a fetch; a supplied hint skips the fetch exactly when
revparse_single finds it in the local object store; otherwise skip. -/
def should_fetch (src : GitPolicyScopeSource) (remote : String) (repo : Repository)
    (hintedHash : Option String) (forceFetch : Bool) : Bool :=
  if forceFetch then true
  else if !(has_remote_branch repo src.branch remote) then true
  else
    match hintedHash with
    | some h => if repo.objects.contains h then false else true
    | none => false

/-- GitPolicyFetcher._notify_on_changes: resolve the remote branch head (early
return when unresolvable), read or create the local branch ref, invoke
on_update(old, new) unconditionally, then set_target the local branch to the
new revision. Returns the repository, the on_update invocations, and the
propagated exception if any. -/
def notify_on_changes (src : GitPolicyScopeSource) (remote : String) (env : Env)
    (repo : Repository) :
    Repository × List (Option String × String) × Option SyncError :=
  match get_commit_hash repo src.branch remote with
  | none => (repo, [], none)
  | some newRevision =>
    match get_local_branch repo src.branch with
    | some oldRevision =>
      if env.onUpdateRaises then
        (repo, [(some oldRevision, newRevision)], some SyncError.callbackError)
      else
        (set_target repo src.branch newRevision, [(some oldRevision, newRevision)], none)
    | none =>
      match create_local_branch_ref repo src.branch remote src.branch with
      | Except.error msg => (repo, [], some (SyncError.runtimeError msg))
      | Except.ok (repoWithRef, _) =>
        if env.onUpdateRaises then
          (repoWithRef, [(none, newRevision)], some SyncError.callbackError)
        else
          (set_target repoWithRef src.branch newRevision, [(none, newRevision)], none)

/-- GitPolicyFetcher._get_valid_repo: opening a corrupted repository raises
pygit2.GitError, which is caught and yields none; a remote URL mismatch raises
ValueError, which is NOT caught and propagates. -/
def get_valid_repo (src : GitPolicyScopeSource) (repo : Repository) :
    Except SyncError (Option Repository) :=
  if repo.corrupted then Except.ok none
  else
    match verify_found_repo_matches_remote repo src.url with
    | Except.ok _ => Except.ok (some repo)
    | Except.error msg => Except.error (SyncError.valueError msg)

/-- GitPolicyFetcher._clone: clone_repository with checkout_branch; a
pygit2.GitError is caught and logged; on success on_update(None, head) is
awaited (an exception it raises propagates). -/
def clone (env : Env) (deleted : Bool) : SyncResult :=
  match env.clone with
  | CloneOutcome.gitError =>
    { world := { cloneExists := false, repo := emptyRepository }, notifications := [],
      fetched := false, cloneAttempted := true, deletedDir := deleted, error := none }
  | CloneOutcome.ok repo headHex =>
    { world := { cloneExists := true, repo := repo },
      notifications := [(none, headHex)],
      fetched := false, cloneAttempted := true, deletedDir := deleted,
      error := if env.onUpdateRaises then some SyncError.callbackError else none }

/-- GitPolicyFetcher.fetch_and_notify_on_changes (the synchronize entry
point): discover the repository; validate it (a corrupted one is deleted and
recloned, a mismatching one raises); decide whether to fetch; fetch (errors
propagate); notify on changes; or fall through to a clean clone. -/
def fetch_and_notify_on_changes (src : GitPolicyScopeSource) (remote : String)
    (env : Env) (w : World) (hintedHash : Option String) (forceFetch : Bool) :
    SyncResult :=
  if w.cloneExists then
    match get_valid_repo src w.repo with
    | Except.error e =>
      { world := w, notifications := [], fetched := false, cloneAttempted := false,
        deletedDir := false, error := some e }
    | Except.ok (some repo) =>
      if should_fetch src remote repo hintedHash forceFetch then
        match env.fetch with
        | FetchOutcome.transportError =>
          { world := { cloneExists := true, repo := repo }, notifications := [],
            fetched := true, cloneAttempted := false, deletedDir := false,
            error := some SyncError.gitError }
        | FetchOutcome.ok repoAfterFetch =>
          let r := notify_on_changes src remote env repoAfterFetch
          { world := { cloneExists := true, repo := r.1 }, notifications := r.2.1,
            fetched := true, cloneAttempted := false, deletedDir := false,
            error := r.2.2 }
      else
        let r := notify_on_changes src remote env repo
        { world := { cloneExists := true, repo := r.1 }, notifications := r.2.1,
          fetched := false, cloneAttempted := false, deletedDir := false,
          error := r.2.2 }
    | Except.ok none =>
      clone env true
  else
    clone env false

/-- Bundle output of the external BundleMaker, tagged by the commits it was
built from: a full snapshot of one commit or a diff between two commits. -/
inductive PolicyBundle
  | full (head : String)
  | diff (base head : String)
deriving DecidableEq

/-- GitPolicyFetcher._get_current_branch_head: resolves the remote branch
head; a missing or empty hash raises ValueError ("if not head_commit_hash"). -/
def get_current_branch_head (src : GitPolicyScopeSource) (remote : String)
    (repo : Repository) : Except SyncError String :=
  match get_commit_hash repo src.branch remote with
  | none => Except.error (SyncError.valueError "Could not find current branch head")
  | some h =>
    if h = "" then Except.error (SyncError.valueError "Could not find current branch head")
    else Except.ok h

/-- GitPython Repo.commit: resolves a commit hash in the object store, raising
BadName (a ValueError) when it does not resolve. -/
def repo_commit (repo : Repository) (hex : String) : Except SyncError String :=
  if repo.objects.contains hex then Except.ok hex
  else Except.error (SyncError.valueError "BadName")

/-- GitPolicyFetcher.make_bundle: resolve the current branch head; a falsy
base_hash (None or empty) yields a full bundle; otherwise try to resolve the
base commit and make a diff bundle, falling back to a full bundle when the
base does not resolve (ValueError caught). -/
def make_bundle (src : GitPolicyScopeSource) (remote : String) (repo : Repository)
    (baseHash : Option String) : Except SyncError PolicyBundle := do
  let headHex ← get_current_branch_head src remote repo
  let currentHeadCommit ← repo_commit repo headHex
  match baseHash with
  | none => pure (PolicyBundle.full currentHeadCommit)
  | some b =>
    if b = "" then pure (PolicyBundle.full currentHeadCommit)
    else
      match repo_commit repo b with
      | Except.ok baseCommit => pure (PolicyBundle.diff baseCommit currentHeadCommit)
      | Except.error _ => pure (PolicyBundle.full currentHeadCommit)

/-- Mirrors the control flow of make_bundle and records which hashes are ever
passed to repo.commit as a base commit: none when the head fails to resolve,
none for an absent or empty base_hash, and exactly the base hash otherwise. -/
def make_bundle_base_lookups (src : GitPolicyScopeSource) (remote : String)
    (repo : Repository) (baseHash : Option String) : List String :=
  match get_current_branch_head src remote repo with
  | Except.error _ => []
  | Except.ok headHex =>
    if repo.objects.contains headHex then
      match baseHash with
      | none => []
      | some b => if b = "" then [] else [b]
    else []

end GitPolicyFetcher

/-! Concrete fixtures used by counterexamples and witnesses. -/

def srcA : GitPolicyScopeSource :=
  { url := "https://example.com/repo.git", branch := "main" }

/-- A clone whose only remote URL differs from the descriptor URL. -/
def repoMismatch : Repository :=
  { remotes := ["https://example.com/other.git"],
    remoteBranches := [("origin/main", "c1")],
    localBranches := [("main", "c1")],
    objects := ["c1"], corrupted := false }

/-- A valid clone of srcA whose remote branch main is at c1 and whose local
branch main is still at c0. -/
def repoBehind : Repository :=
  { remotes := ["https://example.com/repo.git"],
    remoteBranches := [("origin/main", "c1")],
    localBranches := [("main", "c0")],
    objects := ["c0", "c1"], corrupted := false }

/-- A valid clone of srcA with no branches at all and an empty object store. -/
def repoNoBranch : Repository :=
  { remotes := ["https://example.com/repo.git"],
    remoteBranches := [], localBranches := [],
    objects := [], corrupted := false }

/-- A valid clone of srcA holding commit c9 in its object store but with no
remote-tracking branches. -/
def repoHintOnly : Repository :=
  { remotes := ["https://example.com/repo.git"],
    remoteBranches := [], localBranches := [],
    objects := ["c9"], corrupted := false }

/-- Environment in which every network operation would fail and the callback
returns normally. -/
def envIdle : Env :=
  { fetch := FetchOutcome.transportError, clone := CloneOutcome.gitError,
    onUpdateRaises := false }

open GitPolicyFetcher RepoInterface

/-! ### C1 — remote-URL mismatch -/

/-- C1 counterexample: with a local clone present whose only remote URL
differs from the descriptor URL, synchronize propagates an error to the
caller, does not delete the clone directory and does not attempt a fresh
clone — contrary to the claim that it never raises and performs a
delete-and-reclone. -/
theorem c1_counterexample :
    (fetch_and_notify_on_changes srcA "origin" envIdle
        { cloneExists := true, repo := repoMismatch } none false).error ≠ none ∧
    (fetch_and_notify_on_changes srcA "origin" envIdle
        { cloneExists := true, repo := repoMismatch } none false).deletedDir = false ∧
    (fetch_and_notify_on_changes srcA "origin" envIdle
        { cloneExists := true, repo := repoMismatch } none false).cloneAttempted = false := by
  decide

/-- C1 amended: when a local clone exists but none of its configured remote
URLs equals the descriptor URL (and opening it does not raise a git error),
synchronize raises the mismatch ValueError to the caller, leaves the clone
directory in place, deletes nothing, performs no clone and delivers no
notification. -/
theorem c1_mismatch_propagates (src : GitPolicyScopeSource) (remote : String)
    (env : Env) (w : World) (hintedHash : Option String) (forceFetch : Bool)
    (hclone : w.cloneExists = true) (hcorr : w.repo.corrupted = false)
    (hmis : w.repo.remotes.contains src.url = false) :
    fetch_and_notify_on_changes src remote env w hintedHash forceFetch =
      { world := w, notifications := [], fetched := false, cloneAttempted := false,
        deletedDir := false,
        error := some (SyncError.valueError
          ("Repo mismatch! No remote matches target url: " ++ src.url)) } := by
  have hmem : ¬ src.url ∈ w.repo.remotes := by simpa using hmis
  simp [fetch_and_notify_on_changes, get_valid_repo,
    verify_found_repo_matches_remote, hclone, hcorr, hmem]

/-- C1 witness: the amended statement instantiated at the mismatch fixture. -/
theorem c1_mismatch_propagates_witness :
    fetch_and_notify_on_changes srcA "origin" envIdle
        { cloneExists := true, repo := repoMismatch } none false =
      { world := { cloneExists := true, repo := repoMismatch }, notifications := [],
        fetched := false, cloneAttempted := false, deletedDir := false,
        error := some (SyncError.valueError
          ("Repo mismatch! No remote matches target url: " ++ srcA.url)) } :=
  c1_mismatch_propagates srcA "origin" envIdle
    { cloneExists := true, repo := repoMismatch } none false rfl rfl (by decide)

/-! ### C6 — the fetch decision -/

/-- C6: the fetch decision on a valid local clone is exactly: fetch when
force is set; else fetch when the tracked branch is absent among the
remote-tracking branches; else, with a hinted commit, fetch exactly when it
does not resolve in the local object store; else skip. -/
theorem c6_fetch_decision (src : GitPolicyScopeSource) (remote : String)
    (repo : Repository) (hintedHash : Option String) (forceFetch : Bool) :
    should_fetch src remote repo hintedHash forceFetch = true ↔
      (forceFetch = true ∨
       has_remote_branch repo src.branch remote = false ∨
       (∃ h, hintedHash = some h ∧ repo.objects.contains h = false)) := by
  unfold should_fetch
  cases forceFetch with
  | true => simp
  | false =>
    cases hintedHash with
    | none => cases h : has_remote_branch repo src.branch remote <;> simp [h]
    | some hh =>
      cases h : has_remote_branch repo src.branch remote <;>
        cases hc : repo.objects.contains hh <;> simp [h, hc]

/-! ### C2 — notifications on an unchanged head -/

/-- A valid clone of srcA whose local branch main already equals the remote
branch head c1. -/
def repoSynced : Repository :=
  { remotes := ["https://example.com/repo.git"],
    remoteBranches := [("origin/main", "c1")],
    localBranches := [("main", "c1")],
    objects := ["c0", "c1"], corrupted := false }

/-- C2 counterexample: starting from a clone whose local branch is behind, the
first synchronize call notifies (c0, c1); a second call on the resulting
world, with the remote head unchanged and no hint or force, invokes the
notifier AGAIN, with old = new = c1 — so the notifier is not invoked at most
once per distinct head change. -/
theorem c2_counterexample :
    (fetch_and_notify_on_changes srcA "origin" envIdle
        { cloneExists := true, repo := repoBehind } none false).notifications =
      [(some "c0", "c1")] ∧
    (fetch_and_notify_on_changes srcA "origin" envIdle
        (fetch_and_notify_on_changes srcA "origin" envIdle
          { cloneExists := true, repo := repoBehind } none false).world
        none false).notifications = [(some "c1", "c1")] := by
  decide

/-- C2 amended: on a valid clone whose tracked branch head is unchanged (local
branch target already equals the remote head), a synchronize call with no hint
and no force skips the fetch but still invokes the ChangeNotifier exactly once
— with old_revision = new_revision = head. Repeat-call deduplication is left
to the callback; the fetcher itself delivers an equal-revision invocation on
every such cycle. -/
theorem c2_unchanged_head_notifies_equal (src : GitPolicyScopeSource)
    (remote : String) (env : Env) (w : World) (h : String)
    (hclone : w.cloneExists = true) (hcorr : w.repo.corrupted = false)
    (hurl : w.repo.remotes.contains src.url = true)
    (hr : lookupRef w.repo.remoteBranches (remoteBranchKey remote src.branch) = some h)
    (hl : lookupRef w.repo.localBranches src.branch = some h)
    (hcb : env.onUpdateRaises = false) :
    (fetch_and_notify_on_changes src remote env w none false).notifications =
      [(some h, h)] ∧
    (fetch_and_notify_on_changes src remote env w none false).error = none ∧
    (fetch_and_notify_on_changes src remote env w none false).fetched = false := by
  have hmem : src.url ∈ w.repo.remotes := by simpa using hurl
  simp [fetch_and_notify_on_changes, get_valid_repo,
    verify_found_repo_matches_remote, should_fetch, has_remote_branch,
    notify_on_changes, get_commit_hash, get_local_branch,
    hclone, hcorr, hmem, hr, hl, hcb]

/-- C2 witness: the amended statement at a synced fixture — the call invokes
the notifier with (c1, c1). -/
theorem c2_unchanged_head_notifies_equal_witness :
    (fetch_and_notify_on_changes srcA "origin" envIdle
        { cloneExists := true, repo := repoSynced } none false).notifications =
      [(some "c1", "c1")] ∧
    (fetch_and_notify_on_changes srcA "origin" envIdle
        { cloneExists := true, repo := repoSynced } none false).error = none ∧
    (fetch_and_notify_on_changes srcA "origin" envIdle
        { cloneExists := true, repo := repoSynced } none false).fetched = false :=
  c2_unchanged_head_notifies_equal srcA "origin" envIdle
    { cloneExists := true, repo := repoSynced } "c1" rfl rfl (by decide)
    (by decide) (by decide) rfl

/-! ### C3 — transport failure during fetch -/

/-- C3 counterexample: on a valid clone with force set, a transport error in
the network fetch propagates out of synchronize (the error field is the git
error) — it is not caught. -/
theorem c3_counterexample :
    (fetch_and_notify_on_changes srcA "origin" envIdle
        { cloneExists := true, repo := repoBehind } none true).error =
      some SyncError.gitError := by
  decide

/-- C3 amended: when the fetch decision is to fetch and the network fetch
fails with a transport error, the error propagates to the caller; the cycle
ends with no notification and the local clone kept as it was. Only clone
transport errors are caught; fetch transport errors are not. -/
theorem c3_fetch_error_propagates (src : GitPolicyScopeSource) (remote : String)
    (env : Env) (w : World) (hintedHash : Option String) (forceFetch : Bool)
    (hclone : w.cloneExists = true) (hcorr : w.repo.corrupted = false)
    (hurl : w.repo.remotes.contains src.url = true)
    (hsf : should_fetch src remote w.repo hintedHash forceFetch = true)
    (hf : env.fetch = FetchOutcome.transportError) :
    fetch_and_notify_on_changes src remote env w hintedHash forceFetch =
      { world := { cloneExists := true, repo := w.repo }, notifications := [],
        fetched := true, cloneAttempted := false, deletedDir := false,
        error := some SyncError.gitError } := by
  have hmem : src.url ∈ w.repo.remotes := by simpa using hurl
  simp [fetch_and_notify_on_changes, get_valid_repo,
    verify_found_repo_matches_remote, hclone, hcorr, hmem, hsf, hf]

/-- C3 witness: the amended statement at a forced fetch that hits a transport
error. -/
theorem c3_fetch_error_propagates_witness :
    fetch_and_notify_on_changes srcA "origin" envIdle
        { cloneExists := true, repo := repoBehind } none true =
      { world := { cloneExists := true, repo := repoBehind }, notifications := [],
        fetched := true, cloneAttempted := false, deletedDir := false,
        error := some SyncError.gitError } :=
  c3_fetch_error_propagates srcA "origin" envIdle
    { cloneExists := true, repo := repoBehind } none true rfl rfl (by decide)
    (by decide) rfl

/-! ### C4 — missing branch -/

/-- Environment whose fetch succeeds but leaves the clone without any
remote-tracking branches. -/
def envFetchEmpty : Env :=
  { fetch := FetchOutcome.ok repoNoBranch, clone := CloneOutcome.gitError,
    onUpdateRaises := false }

/-- C4 counterexample: with no local branch for the tracked branch (so a
tracking ref would have to be created) and the tracked branch absent from the
remote branches even after a successful fetch, synchronize returns normally —
no "branch not found" error is raised to the caller, contrary to the claim. -/
theorem c4_counterexample :
    (fetch_and_notify_on_changes srcA "origin" envFetchEmpty
        { cloneExists := true, repo := repoNoBranch } none false).error = none ∧
    (fetch_and_notify_on_changes srcA "origin" envFetchEmpty
        { cloneExists := true, repo := repoNoBranch } none false).notifications = [] := by
  decide

/-- C4 amended: when the tracked branch is absent from the remote-tracking
branches (before and after a successful fetch), synchronize ends the cycle
without raising and without notification: the branch head is unresolvable, so
the local-ref creation step — whose "branch not found" RuntimeError would
require neither branch nor base branch to exist — is never reached from
synchronize. That error arises only when create_local_branch_ref is invoked
directly in such a state. -/
theorem c4_missing_branch_silent (src : GitPolicyScopeSource) (remote : String)
    (env : Env) (w : World) (hintedHash : Option String) (forceFetch : Bool)
    (repoAfterFetch : Repository)
    (hclone : w.cloneExists = true) (hcorr : w.repo.corrupted = false)
    (hurl : w.repo.remotes.contains src.url = true)
    (hb : lookupRef w.repo.remoteBranches (remoteBranchKey remote src.branch) = none)
    (hf : env.fetch = FetchOutcome.ok repoAfterFetch)
    (hb2 : lookupRef repoAfterFetch.remoteBranches (remoteBranchKey remote src.branch) = none)
    (hl2 : lookupRef repoAfterFetch.localBranches src.branch = none) :
    (fetch_and_notify_on_changes src remote env w hintedHash forceFetch).error = none ∧
    (fetch_and_notify_on_changes src remote env w hintedHash forceFetch).notifications = [] ∧
    create_local_branch_ref repoAfterFetch src.branch remote src.branch =
      Except.error "Both branch and base branch were not found on remote" := by
  have hmem : src.url ∈ w.repo.remotes := by simpa using hurl
  have hsf : should_fetch src remote w.repo hintedHash forceFetch = true := by
    cases forceFetch <;> simp [should_fetch, has_remote_branch, hb]
  refine ⟨?_, ?_, ?_⟩
  · simp [fetch_and_notify_on_changes, get_valid_repo,
      verify_found_repo_matches_remote, notify_on_changes, get_commit_hash,
      hclone, hcorr, hmem, hsf, hf, hb2]
  · simp [fetch_and_notify_on_changes, get_valid_repo,
      verify_found_repo_matches_remote, notify_on_changes, get_commit_hash,
      hclone, hcorr, hmem, hsf, hf, hb2]
  · simp [create_local_branch_ref, hl2, hb2]

/-- C4 witness: the amended statement at the empty-branch fixture. -/
theorem c4_missing_branch_silent_witness :
    (fetch_and_notify_on_changes srcA "origin" envFetchEmpty
        { cloneExists := true, repo := repoNoBranch } none false).error = none ∧
    (fetch_and_notify_on_changes srcA "origin" envFetchEmpty
        { cloneExists := true, repo := repoNoBranch } none false).notifications = [] ∧
    create_local_branch_ref repoNoBranch srcA.branch "origin" srcA.branch =
      Except.error "Both branch and base branch were not found on remote" :=
  c4_missing_branch_silent srcA "origin" envFetchEmpty
    { cloneExists := true, repo := repoNoBranch } none false repoNoBranch
    rfl rfl (by decide) (by decide) rfl (by decide) (by decide)

/-! ### C5 — the tracking ref advances only after the callback completes -/

/-- Updating a ref that is present makes its lookup return the new target. -/
theorem lookupRef_setRef (l : List (String × String)) (b n : String)
    (h : (lookupRef l b).isSome) :
    lookupRef (setRef l b n) b = some n := by
  induction l with
  | nil => simp [lookupRef] at h
  | cons hd tl ih =>
    obtain ⟨k, v⟩ := hd
    by_cases hk : k = b
    · simp [lookupRef, setRef, hk]
    · simp [lookupRef, setRef, hk] at h ⊢
      exact ih h

/-- Environment in which the on_update callback raises. -/
def envCallbackRaises : Env :=
  { fetch := FetchOutcome.transportError, clone := CloneOutcome.gitError,
    onUpdateRaises := true }

/-- C5: in a cycle that reaches the notification step on a valid clone with an
existing tracking ref (no fetch needed), the notifier is invoked with the old
and new revisions; when the callback raises, the tracking ref keeps its
previous value (and the exception propagates), and only when the callback
completes is the tracking ref advanced to the new revision. -/
theorem c5_ref_advances_after_callback (src : GitPolicyScopeSource)
    (remote : String) (env : Env) (w : World) (v n : String)
    (hintedHash : Option String) (forceFetch : Bool)
    (hclone : w.cloneExists = true) (hcorr : w.repo.corrupted = false)
    (hurl : w.repo.remotes.contains src.url = true)
    (hsf : should_fetch src remote w.repo hintedHash forceFetch = false)
    (hr : lookupRef w.repo.remoteBranches (remoteBranchKey remote src.branch) = some n)
    (hl : lookupRef w.repo.localBranches src.branch = some v) :
    (fetch_and_notify_on_changes src remote env w hintedHash forceFetch).notifications =
      [(some v, n)] ∧
    (env.onUpdateRaises = true →
      lookupRef (fetch_and_notify_on_changes src remote env w hintedHash
          forceFetch).world.repo.localBranches src.branch = some v ∧
      (fetch_and_notify_on_changes src remote env w hintedHash forceFetch).error =
        some SyncError.callbackError) ∧
    (env.onUpdateRaises = false →
      lookupRef (fetch_and_notify_on_changes src remote env w hintedHash
          forceFetch).world.repo.localBranches src.branch = some n ∧
      (fetch_and_notify_on_changes src remote env w hintedHash forceFetch).error =
        none) := by
  have hmem : src.url ∈ w.repo.remotes := by simpa using hurl
  cases hcb : env.onUpdateRaises with
  | true =>
    simp [fetch_and_notify_on_changes, get_valid_repo,
      verify_found_repo_matches_remote, notify_on_changes, get_commit_hash,
      get_local_branch, hclone, hcorr, hmem, hsf, hr, hl, hcb]
  | false =>
    simp [fetch_and_notify_on_changes, get_valid_repo,
      verify_found_repo_matches_remote, notify_on_changes, get_commit_hash,
      get_local_branch, set_target, hclone, hcorr, hmem, hsf, hr, hl, hcb]
    exact lookupRef_setRef _ _ _ (by simp [hl])

/-- C5 witness: with a raising callback, the cycle that would advance the ref
from c0 to c1 invokes the notifier, propagates the callback exception, and
leaves the tracking ref at c0. -/
theorem c5_ref_advances_after_callback_witness :
    (fetch_and_notify_on_changes srcA "origin" envCallbackRaises
        { cloneExists := true, repo := repoBehind } none false).notifications =
      [(some "c0", "c1")] ∧
    (envCallbackRaises.onUpdateRaises = true →
      lookupRef (fetch_and_notify_on_changes srcA "origin" envCallbackRaises
          { cloneExists := true, repo := repoBehind } none
          false).world.repo.localBranches srcA.branch = some "c0" ∧
      (fetch_and_notify_on_changes srcA "origin" envCallbackRaises
          { cloneExists := true, repo := repoBehind } none false).error =
        some SyncError.callbackError) ∧
    (envCallbackRaises.onUpdateRaises = false →
      lookupRef (fetch_and_notify_on_changes srcA "origin" envCallbackRaises
          { cloneExists := true, repo := repoBehind } none
          false).world.repo.localBranches srcA.branch = some "c1" ∧
      (fetch_and_notify_on_changes srcA "origin" envCallbackRaises
          { cloneExists := true, repo := repoBehind } none false).error = none) :=
  c5_ref_advances_after_callback srcA "origin" envCallbackRaises
    { cloneExists := true, repo := repoBehind } "c0" "c1" none false rfl rfl
    (by decide) (by decide) (by decide) (by decide)

/-! ### C7 — the hint optimization -/

/-- C7 counterexample: on a valid clone holding the hinted commit c9 in its
object store but with the tracked branch absent from the remote-tracking
branches, a synchronize call without force and with hint c9 still performs a
network fetch — the resolvable hint does not suppress it. -/
theorem c7_counterexample :
    (fetch_and_notify_on_changes srcA "origin" envIdle
        { cloneExists := true, repo := repoHintOnly } (some "c9") false).fetched =
      true := by
  decide

/-- C7 amended: on a valid clone whose tracked branch is present among the
remote-tracking branches, a synchronize call without force whose hinted commit
resolves in the local object store performs no network fetch. -/
theorem c7_hint_skips_fetch (src : GitPolicyScopeSource) (remote : String)
    (env : Env) (w : World) (h : String)
    (hclone : w.cloneExists = true) (hcorr : w.repo.corrupted = false)
    (hurl : w.repo.remotes.contains src.url = true)
    (hbr : has_remote_branch w.repo src.branch remote = true)
    (hobj : w.repo.objects.contains h = true) :
    (fetch_and_notify_on_changes src remote env w (some h) false).fetched = false := by
  have hmem : src.url ∈ w.repo.remotes := by simpa using hurl
  have hobjMem : h ∈ w.repo.objects := by simpa using hobj
  simp [fetch_and_notify_on_changes, get_valid_repo,
    verify_found_repo_matches_remote, should_fetch, hclone, hcorr, hmem, hbr,
    hobjMem]

/-- C7 witness: the amended statement at a synced fixture hinted with a
locally present commit. -/
theorem c7_hint_skips_fetch_witness :
    (fetch_and_notify_on_changes srcA "origin" envIdle
        { cloneExists := true, repo := repoSynced } (some "c0") false).fetched =
      false :=
  c7_hint_skips_fetch srcA "origin" envIdle
    { cloneExists := true, repo := repoSynced } "c0" rfl rfl (by decide)
    (by decide) (by decide)

/-! ### C8 — bundle fallback on an unresolvable base -/

/-- C8: make_bundle with a nonempty base hash that does not resolve in the
object store returns exactly what make_bundle with no base returns; in
particular, whenever the current branch head resolves, it returns a full
snapshot of the head and raises nothing. -/
theorem c8_bundle_fallback (src : GitPolicyScopeSource) (remote : String)
    (repo : Repository) (b : String)
    (hb : b ≠ "") (hnores : repo.objects.contains b = false) :
    make_bundle src remote repo (some b) = make_bundle src remote repo none ∧
    (∀ h, get_current_branch_head src remote repo = Except.ok h →
      repo.objects.contains h = true →
      make_bundle src remote repo (some b) = Except.ok (PolicyBundle.full h)) := by
  have hbm : ¬ b ∈ repo.objects := by simpa using hnores
  constructor
  · cases hh : get_current_branch_head src remote repo with
    | error e => simp [make_bundle, hh, bind, Except.bind]
    | ok headHex =>
      by_cases hc : headHex ∈ repo.objects <;>
        simp [make_bundle, repo_commit, hh, hc, hb, hbm, bind, Except.bind]
  · intro h hh hc
    have hcm : h ∈ repo.objects := by simpa using hc
    simp [make_bundle, repo_commit, hh, hcm, hb, hbm, bind, Except.bind, pure,
      Except.pure]

/-- C8 witness: an unresolvable base "zz" on the synced fixture yields the
same result as no base — the full snapshot of head c1. -/
theorem c8_bundle_fallback_witness :
    make_bundle srcA "origin" repoSynced (some "zz") =
      make_bundle srcA "origin" repoSynced none ∧
    make_bundle srcA "origin" repoSynced (some "zz") =
      Except.ok (PolicyBundle.full "c1") :=
  ⟨(c8_bundle_fallback srcA "origin" repoSynced "zz" (by decide) (by decide)).1,
   (c8_bundle_fallback srcA "origin" repoSynced "zz" (by decide) (by decide)).2
     "c1" rfl (by decide)⟩

/-! ### C9 — behavior with no local clone -/

/-- Environment whose clone succeeds, producing the synced fixture with head
c1, and whose callback returns normally. -/
def envCloneOk : Env :=
  { fetch := FetchOutcome.transportError,
    clone := CloneOutcome.ok repoSynced "c1", onUpdateRaises := false }

/-- C9: when no local clone is present, synchronize attempts a clone (with
checkout of the tracked branch); a clone failure is caught — no error, no
notification; a successful clone notifies exactly (none, resulting head). -/
theorem c9_no_clone_behavior (src : GitPolicyScopeSource) (remote : String)
    (env : Env) (w : World) (hintedHash : Option String) (forceFetch : Bool)
    (h : w.cloneExists = false) :
    (fetch_and_notify_on_changes src remote env w hintedHash forceFetch).cloneAttempted =
      true ∧
    (env.clone = CloneOutcome.gitError →
      (fetch_and_notify_on_changes src remote env w hintedHash forceFetch).error = none ∧
      (fetch_and_notify_on_changes src remote env w hintedHash forceFetch).notifications = []) ∧
    (∀ repo hex, env.clone = CloneOutcome.ok repo hex → env.onUpdateRaises = false →
      (fetch_and_notify_on_changes src remote env w hintedHash forceFetch).notifications =
        [(none, hex)] ∧
      (fetch_and_notify_on_changes src remote env w hintedHash forceFetch).error = none ∧
      (fetch_and_notify_on_changes src remote env w hintedHash forceFetch).world =
        { cloneExists := true, repo := repo }) := by
  refine ⟨?_, ?_, ?_⟩
  · cases hc : env.clone <;> simp [fetch_and_notify_on_changes, clone, h, hc]
  · intro hc
    simp [fetch_and_notify_on_changes, clone, h, hc]
  · intro repo hex hc hcb
    simp [fetch_and_notify_on_changes, clone, h, hc, hcb]

/-- C9 witness: with no clone present and a succeeding clone environment, the
cycle clones and notifies (none, c1) without error. -/
theorem c9_no_clone_behavior_witness :
    (fetch_and_notify_on_changes srcA "origin" envCloneOk
        { cloneExists := false, repo := emptyRepository } none false).cloneAttempted =
      true ∧
    (envCloneOk.clone = CloneOutcome.gitError →
      (fetch_and_notify_on_changes srcA "origin" envCloneOk
          { cloneExists := false, repo := emptyRepository } none false).error = none ∧
      (fetch_and_notify_on_changes srcA "origin" envCloneOk
          { cloneExists := false, repo := emptyRepository } none false).notifications = []) ∧
    (∀ repo hex, envCloneOk.clone = CloneOutcome.ok repo hex →
      envCloneOk.onUpdateRaises = false →
      (fetch_and_notify_on_changes srcA "origin" envCloneOk
          { cloneExists := false, repo := emptyRepository } none false).notifications =
        [(none, hex)] ∧
      (fetch_and_notify_on_changes srcA "origin" envCloneOk
          { cloneExists := false, repo := emptyRepository } none false).error = none ∧
      (fetch_and_notify_on_changes srcA "origin" envCloneOk
          { cloneExists := false, repo := emptyRepository } none false).world =
        { cloneExists := true, repo := repo }) :=
  c9_no_clone_behavior srcA "origin" envCloneOk
    { cloneExists := false, repo := emptyRepository } none false rfl

/-! ### C10 — empty-string base hash -/

/-- C10: make_bundle treats an empty-string base hash exactly like an absent
one — the result is the same bundle, and the base-commit resolution is never
attempted. -/
theorem c10_empty_base (src : GitPolicyScopeSource) (remote : String)
    (repo : Repository) :
    make_bundle src remote repo (some "") = make_bundle src remote repo none ∧
    make_bundle_base_lookups src remote repo (some "") = [] := by
  constructor
  · cases hh : get_current_branch_head src remote repo with
    | error e => simp [make_bundle, hh, bind, Except.bind]
    | ok headHex =>
      cases hc : repo.objects.contains headHex <;>
        simp [make_bundle, repo_commit, hh, hc, bind, Except.bind]
  · cases hh : get_current_branch_head src remote repo with
    | error e => simp [make_bundle_base_lookups, hh]
    | ok headHex =>
      cases hc : repo.objects.contains headHex <;>
        simp [make_bundle_base_lookups, hh, hc]

end Opal
